import Mathlib

/-!
Verification of the VOP3P packed-SIMD instruction semantics
(src/arch/amdgpu/vega/insts/vop3p.cc) against its natural-language
specification.  Machine integers are modelled as `Nat` (unsigned words)
and `Int` (signed values) with explicit reductions modulo `2 ^ w`.
-/

namespace Vop3p

/-! ## Machine-integer primitives -/

/-- Reinterpret a signed 32-bit value (two's complement) as an unsigned
32-bit word, as C++ does when converting `int32_t` to `uint32_t` or when
reading the bytes of an `int32_t`. -/
def toU32 (x : Int) : Nat := (x % (2 ^ 32 : Int)).toNat

/-- Reinterpret an unsigned 32-bit word as a signed 32-bit value
(two's complement), as `*reinterpret_cast<int32_t*>(&x)` does. -/
def toI32 (x : Nat) : Int :=
  if x % 2 ^ 32 < 2 ^ 31 then ((x % 2 ^ 32 : Nat) : Int)
  else ((x % 2 ^ 32 : Nat) : Int) - 2 ^ 32

/-- gem5's `bits(x, hi, lo)`: the bit field `[hi:lo]` of `x`,
zero-extended. -/
def bits (x hi lo : Nat) : Nat := (x >>> lo) &&& (2 ^ (hi - lo + 1) - 1)

/-- gem5's `mask(n)`: the low-`n`-bits mask. -/
def mask (n : Nat) : Nat := 2 ^ n - 1

/-- gem5's `sext<w>(x)`: reinterpret the low `w` bits of `x` as a
two's-complement value. -/
def sext (w : Nat) (x : Nat) : Int :=
  if x % 2 ^ w < 2 ^ (w - 1) then ((x % 2 ^ w : Nat) : Int)
  else ((x % 2 ^ w : Nat) : Int) - 2 ^ w

/-! ## Saturation helpers (vop3p.cc lines 46-127) -/

/-- `dotClampI<N>(value, clamp)` from vop3p.cc: if `clamp` is false the
`int32_t` value is returned unchanged; otherwise `std::clamp` to the
signed `N`-bit range. -/
def dotClampI (n : Nat) (value : Int) (clamp : Bool) : Int :=
  if !clamp then value
  else
    let mn : Int := -(2 ^ (n - 1))
    let mx : Int := 2 ^ (n - 1) - 1
    if value < mn then mn else if mx < value then mx else value

/-- `dotClampU<N>(value, clamp)` from vop3p.cc: if `clamp` is false the
value passes through a no-op `static_cast<int32_t>`; otherwise
`std::clamp<int32_t>` is used, so the `uint32_t` argument is first
reinterpreted as a signed 32-bit value. -/
def dotClampU (n : Nat) (value : Nat) (clamp : Bool) : Nat :=
  if !clamp then value
  else
    let v : Int := toI32 value
    let mx : Int := 2 ^ n - 1
    toU32 (if v < 0 then 0 else if mx < v then mx else v)

/-- `clampI16(value, clamp)` from vop3p.cc: truncating cast to `int16_t`
when `clamp` is false, otherwise `std::clamp` to the `int16_t` range. -/
def clampI16 (value : Int) (clamp : Bool) : Int :=
  if !clamp then sext 16 (toU32 value)
  else if value < -32768 then -32768 else if 32767 < value then 32767 else value

/-- `clampU16(value, clamp)` from vop3p.cc: truncating cast to `uint16_t`
when `clamp` is false, otherwise `std::clamp` to the `uint16_t` range. -/
def clampU16 (value : Nat) (clamp : Bool) : Nat :=
  if !clamp then value % 2 ^ 16
  else if 65535 < value then 65535 else value

/-! ## Helper lemmas -/

theorem bits_field (x lo w : Nat) (hw : 1 ≤ w) :
    bits x (lo + w - 1) lo = (x >>> lo) % 2 ^ w := by
  unfold bits
  have h : lo + w - 1 - lo + 1 = w := by omega
  rw [h, Nat.and_pow_two_sub_one_eq_mod]

theorem bits_lt (x hi lo : Nat) : bits x hi lo < 2 ^ (hi - lo + 1) := by
  unfold bits
  have h := Nat.and_le_right (n := x >>> lo) (m := 2 ^ (hi - lo + 1) - 1)
  have hpos : 0 < 2 ^ (hi - lo + 1) := Nat.pos_pow_of_pos _ (by norm_num)
  omega

/-! ## Claims C4 and C5: contracts of the saturation helpers -/

/-- C4 (amended): with `enabled = true`, both `dotClampI` (any width
`1 ≤ N < 32`) and `clampI16` are idempotent and their result lies in
`[-2^(N-1), 2^(N-1)-1]`; with `enabled = false`, `clampI16` equals
two's-complement truncation to 16 bits, while `dotClampI` returns its
argument unchanged (it performs no truncation). -/
theorem C4_clamp_contract (n : Nat) (v : Int) (h1 : 1 ≤ n) (h2 : n < 32) :
    (dotClampI n (dotClampI n v true) true = dotClampI n v true ∧
     -(2 ^ (n - 1)) ≤ dotClampI n v true ∧
     dotClampI n v true ≤ 2 ^ (n - 1) - 1 ∧
     dotClampI n v false = v) ∧
    (clampI16 (clampI16 v true) true = clampI16 v true ∧
     -(2 ^ 15) ≤ clampI16 v true ∧
     clampI16 v true ≤ 2 ^ 15 - 1 ∧
     clampI16 v false = sext 16 (toU32 v)) := by
  have hp : (0 : Int) < 2 ^ (n - 1) := by positivity
  refine ⟨⟨?_, ?_, ?_, rfl⟩, ⟨?_, ?_, ?_, rfl⟩⟩ <;>
    simp only [dotClampI, clampI16, Bool.not_true, Bool.false_eq_true,
      if_false] <;>
    split_ifs <;> omega

/-- C4 witness: the amended contract at `n = 16`, `v = 65539`. -/
theorem C4_clamp_contract_witness :
    (1 : Nat) ≤ 16 ∧ dotClampI 16 65539 false = 65539 :=
  ⟨by decide, (C4_clamp_contract 16 65539 (by decide) (by decide)).1.2.2.2⟩

/-- C4 counterexample: with `enabled = false` and `N = 16`,
`dotClampI` does not truncate `65536` to its low 16 bits. -/
theorem C4_counterexample :
    dotClampI 16 65536 false ≠ sext 16 (toU32 65536) := by decide

/-- C5 (amended): with `enabled = true`, `dotClampU` clamps the value
reinterpreted as a signed 32-bit integer into `[0, 2^N-1]` — for
`v < 2^31` this is `min v (2^N - 1)`, but for `v ≥ 2^31` the result is
`0` rather than the maximum; with `enabled = false`, `dotClampU` returns
`v` unchanged (not `v mod 2^N`).  `clampU16` does satisfy the claimed
contract: `min v 65535` when enabled, `v mod 2^16` when disabled. -/
theorem C5_unsigned_clamp_contract (n : Nat) (v : Nat)
    (h1 : 1 ≤ n) (h2 : n < 32) (hv : v < 2 ^ 32) :
    (v < 2 ^ 31 → dotClampU n v true = min v (2 ^ n - 1)) ∧
    (2 ^ 31 ≤ v → dotClampU n v true = 0) ∧
    dotClampU n v false = v ∧
    clampU16 v true = min v (2 ^ 16 - 1) ∧
    clampU16 v false = v % 2 ^ 16 := by
  have hk : (((2 : Nat) ^ n : Nat) : Int) = (2 : Int) ^ n := by push_cast; ring
  have hnpos : (0 : Nat) < 2 ^ n := Nat.pos_pow_of_pos _ (by norm_num)
  have hn32 : (2 : Nat) ^ n ≤ 2 ^ 32 :=
    Nat.pow_le_pow_right (by norm_num) (by omega)
  refine ⟨?_, ?_, rfl, ?_, rfl⟩
  · intro hlt
    simp only [dotClampU, toI32, toU32, Bool.not_true, Bool.false_eq_true,
      if_false]
    split_ifs <;> omega
  · intro hge
    simp only [dotClampU, toI32, toU32, Bool.not_true, Bool.false_eq_true,
      if_false]
    split_ifs <;> omega
  · simp only [clampU16, Bool.not_true, Bool.false_eq_true, if_false]
    split_ifs <;> omega

/-- C5 witness: the amended contract at `n = 16`, `v = 2^31 + 7`. -/
theorem C5_unsigned_clamp_contract_witness :
    (2 : Nat) ^ 31 ≤ 2 ^ 31 + 7 ∧ dotClampU 16 (2 ^ 31 + 7) true = 0 :=
  ⟨by norm_num,
   (C5_unsigned_clamp_contract 16 (2 ^ 31 + 7) (by norm_num) (by norm_num)
     (by norm_num)).2.1 (by norm_num)⟩

/-- C5 counterexample: `dotClampU` at width 16 with clamping enabled
maps `2^31` to `0`, not to `min (2^31) (2^16 - 1) = 65535`. -/
theorem C5_counterexample :
    dotClampU 16 (2 ^ 31) true ≠ min (2 ^ 31) (2 ^ 16 - 1) := by decide

/-! ## Packed 16-bit per-element operations (vop3p.cc lines 133-287) -/

/-- The per-element operation of `V_PK_ADD_I16::execute`:
`clampI16(S0 + S1, clamp)` on `int16_t` element values. -/
def pkAddI16op (s0 s1 : Int) (clamp : Bool) : Int := clampI16 (s0 + s1) clamp

/-- The per-element operation of `V_PK_MUL_LO_U16::execute`: the low 16
bits of the 32-bit product; the clamp flag is ignored by this
operation. -/
def pkMulLoU16op (s0 s1 : Nat) (clamp : Bool) : Nat :=
  let d := s0 * s1 % 2 ^ 32
  d &&& 0xFFFF

/-- C8: for all `int16_t` inputs with clamp enabled the packed
signed-add element result lies within the `int16` bounds even when the
mathematical sum does not; `S0 = 32000, S1 = 1000` with `clamp = true`
yields `32767`, and with `clamp = false` the sum wraps modulo `2^16` to
`-32536`. -/
theorem C8_pk_add_i16_saturates :
    (∀ s0 s1 : Int, -(2 ^ 15) ≤ s0 → s0 ≤ 2 ^ 15 - 1 →
      -(2 ^ 15) ≤ s1 → s1 ≤ 2 ^ 15 - 1 →
      -(2 ^ 15) ≤ pkAddI16op s0 s1 true ∧
      pkAddI16op s0 s1 true ≤ 2 ^ 15 - 1) ∧
    pkAddI16op 32000 1000 true = 32767 ∧
    pkAddI16op 32000 1000 false = -32536 := by
  refine ⟨fun s0 s1 _ _ _ _ => ?_, by decide, by decide⟩
  simp only [pkAddI16op, clampI16, Bool.not_true, Bool.false_eq_true, if_false]
  split_ifs <;> omega

/-- C8 witness: the bound at the concrete inputs `32000` and `1000`. -/
theorem C8_pk_add_i16_saturates_witness :
    -(2 ^ 15 : Int) ≤ pkAddI16op 32000 1000 true ∧
    pkAddI16op 32000 1000 true ≤ 2 ^ 15 - 1 :=
  C8_pk_add_i16_saturates.1 32000 1000 (by decide) (by decide)
    (by decide) (by decide)

/-- C10: for all 16-bit inputs and both values of the clamp flag,
the `V_PK_MUL_LO_U16` element result equals `(S0 * S1) mod 2^16`; the
clamp modifier has no effect on this instruction. -/
theorem C10_mul_lo_u16_mod :
    ∀ s0 s1 : Nat, s0 < 2 ^ 16 → s1 < 2 ^ 16 → ∀ clamp : Bool,
      pkMulLoU16op s0 s1 clamp = s0 * s1 % 2 ^ 16 ∧
      pkMulLoU16op s0 s1 clamp = pkMulLoU16op s0 s1 (!clamp) := by
  intro s0 s1 h0 h1 clamp
  have key : pkMulLoU16op s0 s1 clamp = s0 * s1 % 2 ^ 16 := by
    simp only [pkMulLoU16op]
    rw [(by norm_num : (0xFFFF : Nat) = 2 ^ 16 - 1),
      Nat.and_pow_two_sub_one_eq_mod,
      Nat.mod_mod_of_dvd _ (by norm_num : (2 : Nat) ^ 16 ∣ 2 ^ 32)]
  have key2 : pkMulLoU16op s0 s1 (!clamp) = s0 * s1 % 2 ^ 16 := by
    simp only [pkMulLoU16op]
    rw [(by norm_num : (0xFFFF : Nat) = 2 ^ 16 - 1),
      Nat.and_pow_two_sub_one_eq_mod,
      Nat.mod_mod_of_dvd _ (by norm_num : (2 : Nat) ^ 16 ∣ 2 ^ 32)]
  exact ⟨key, key.trans key2.symm⟩

/-- C10 witness: the element operation at `s0 = 3, s1 = 5, clamp = true`. -/
theorem C10_mul_lo_u16_mod_witness :
    pkMulLoU16op 3 5 true = 3 * 5 % 2 ^ 16 :=
  (C10_mul_lo_u16_mod 3 5 (by decide) (by decide) true).1

/-! ## Signed dot-product reductions (vop3p.cc lines 384-419, 455-490,
526-561)

The per-reduction operation of `V_DOT2_I32_I16`, `V_DOT4_I32_I8` and
`V_DOT8_I32_I4` differs only in the element width `INBITS`; `dotTermI`
is one iteration of the accumulation loop:
`C[i] = sext<INBITS>(S0[i]) * sext<INBITS>(S1[i]);
 C[i] = sext<INBITS>(dotClampI<INBITS>(C[i], clamp) & mask(INBITS));`. -/

/-- One loop iteration of the signed dot-product reduction, from the
source. -/
def dotTermI (w : Nat) (s0r s1r : Nat) (clamp : Bool) (i : Nat) : Int :=
  sext w (toU32 (dotClampI w
    (sext w (bits s0r (i * w + w - 1) (i * w)) *
     sext w (bits s1r (i * w + w - 1) (i * w))) clamp) &&& mask w)

/-- `Csum` after the first `k` iterations of the reduction loop. -/
def dotSumI (w : Nat) (s0r s1r : Nat) (clamp : Bool) : Nat → Int
  | 0 => 0
  | i + 1 => dotSumI w s0r s1r clamp i + dotTermI w s0r s1r clamp i

/-- The per-lane operation of `V_DOT2_I32_I16::execute` (INBITS = 16). -/
def vDot2I32I16op (s0r s1r s2r : Nat) (clamp : Bool) : Nat :=
  toU32 (dotSumI 16 s0r s1r clamp 2 + toI32 s2r)

/-- The per-lane operation of `V_DOT4_I32_I8::execute` (INBITS = 8). -/
def vDot4I32I8op (s0r s1r s2r : Nat) (clamp : Bool) : Nat :=
  toU32 (dotSumI 8 s0r s1r clamp 4 + toI32 s2r)

/-- The per-lane operation of `V_DOT8_I32_I4::execute` (INBITS = 4). -/
def vDot8I32I4op (s0r s1r s2r : Nat) (clamp : Bool) : Nat :=
  toU32 (dotSumI 4 s0r s1r clamp 8 + toI32 s2r)

/-! Specification-side formalisation of the dot-product contract (§4.5
of the spec): sign-extend each element, clamp *each individual product*
to the signed element range when the clamp modifier is enabled
(two's-complement truncation when disabled, per the §4.2 clamp
contract), accumulate, then add the third scalar with no clamping. -/

/-- Spec §4.1 `extractField`: element `i` of width `w` of a word. -/
def specExtract (word w i : Nat) : Nat := (word >>> (i * w)) % 2 ^ w

/-- Spec §4.2 signed clamp contract: saturate to
`[-2^(w-1), 2^(w-1)-1]` when enabled, two's-complement truncation to
`w` bits when disabled. -/
def specClampSigned (w : Nat) (p : Int) (clamp : Bool) : Int :=
  if clamp then max (-(2 ^ (w - 1))) (min p (2 ^ (w - 1) - 1))
  else sext w (toU32 p)

/-- Spec §4.5: the `i`-th individually-clamped product. -/
def specDotTermI (w : Nat) (s0r s1r : Nat) (clamp : Bool) (i : Nat) : Int :=
  specClampSigned w
    (sext w (specExtract s0r w i) * sext w (specExtract s1r w i)) clamp

/-- Spec §4.5: accumulated sum of the first `k` clamped products. -/
def specDotSumI (w : Nat) (s0r s1r : Nat) (clamp : Bool) : Nat → Int
  | 0 => 0
  | i + 1 => specDotSumI w s0r s1r clamp i + specDotTermI w s0r s1r clamp i

/-- Spec §4.5: a signed dot product accumulates the `32 / w` clamped
products and adds the unclamped third scalar at the end. -/
def specDotSignedI32 (w : Nat) (s0r s1r s2r : Nat) (clamp : Bool) : Nat :=
  toU32 (specDotSumI w s0r s1r clamp (32 / w) + toI32 s2r)

theorem dotTermPointEq16 (p : Int) (c : Bool) :
    sext 16 (toU32 (dotClampI 16 p c) &&& mask 16) = specClampSigned 16 p c := by
  cases c <;>
    simp only [dotClampI, specClampSigned, mask, sext, toU32,
      Bool.not_true, Bool.not_false, Bool.false_eq_true, if_false, if_true,
      Nat.and_pow_two_sub_one_eq_mod] <;>
    split_ifs <;> omega

theorem dotTermPointEq8 (p : Int) (c : Bool) :
    sext 8 (toU32 (dotClampI 8 p c) &&& mask 8) = specClampSigned 8 p c := by
  cases c <;>
    simp only [dotClampI, specClampSigned, mask, sext, toU32,
      Bool.not_true, Bool.not_false, Bool.false_eq_true, if_false, if_true,
      Nat.and_pow_two_sub_one_eq_mod] <;>
    split_ifs <;> omega

theorem dotTermPointEq4 (p : Int) (c : Bool) :
    sext 4 (toU32 (dotClampI 4 p c) &&& mask 4) = specClampSigned 4 p c := by
  cases c <;>
    simp only [dotClampI, specClampSigned, mask, sext, toU32,
      Bool.not_true, Bool.not_false, Bool.false_eq_true, if_false, if_true,
      Nat.and_pow_two_sub_one_eq_mod] <;>
    split_ifs <;> omega

theorem dotSumI_eq_spec (w s0r s1r : Nat) (c : Bool)
    (h : ∀ i, dotTermI w s0r s1r c i = specDotTermI w s0r s1r c i) :
    ∀ k, dotSumI w s0r s1r c k = specDotSumI w s0r s1r c k := by
  intro k
  induction k with
  | zero => rfl
  | succ i ih => simp only [dotSumI, specDotSumI, ih, h]

theorem dotTermI_eq_spec16 (s0r s1r : Nat) (c : Bool) (i : Nat) :
    dotTermI 16 s0r s1r c i = specDotTermI 16 s0r s1r c i := by
  unfold dotTermI specDotTermI specExtract
  rw [bits_field _ _ _ (by norm_num), bits_field _ _ _ (by norm_num)]
  exact dotTermPointEq16 _ c

theorem dotTermI_eq_spec8 (s0r s1r : Nat) (c : Bool) (i : Nat) :
    dotTermI 8 s0r s1r c i = specDotTermI 8 s0r s1r c i := by
  unfold dotTermI specDotTermI specExtract
  rw [bits_field _ _ _ (by norm_num), bits_field _ _ _ (by norm_num)]
  exact dotTermPointEq8 _ c

theorem dotTermI_eq_spec4 (s0r s1r : Nat) (c : Bool) (i : Nat) :
    dotTermI 4 s0r s1r c i = specDotTermI 4 s0r s1r c i := by
  unfold dotTermI specDotTermI specExtract
  rw [bits_field _ _ _ (by norm_num), bits_field _ _ _ (by norm_num)]
  exact dotTermPointEq4 _ c

/-- C1: for every signed dot-product instruction (`V_DOT2_I32_I16`,
`V_DOT4_I32_I8`, `V_DOT8_I32_I4`), all 32-bit source words and both
values of the clamp flag, the per-lane result equals the spec-side
computation: sum over the `K` sub-elements of the sign-extended
products, each individually clamped (per the §4.2 contract) before
accumulation, plus the third scalar added at the end with no clamping
of that final addition. -/
theorem C1_dot_signed_per_product_clamp :
    ∀ (s0r s1r s2r : Nat) (clamp : Bool),
      vDot2I32I16op s0r s1r s2r clamp = specDotSignedI32 16 s0r s1r s2r clamp ∧
      vDot4I32I8op s0r s1r s2r clamp = specDotSignedI32 8 s0r s1r s2r clamp ∧
      vDot8I32I4op s0r s1r s2r clamp = specDotSignedI32 4 s0r s1r s2r clamp := by
  intro s0r s1r s2r clamp
  refine ⟨?_, ?_, ?_⟩
  · unfold vDot2I32I16op specDotSignedI32
    rw [dotSumI_eq_spec 16 s0r s1r clamp (dotTermI_eq_spec16 s0r s1r clamp)]
  · unfold vDot4I32I8op specDotSignedI32
    rw [dotSumI_eq_spec 8 s0r s1r clamp (dotTermI_eq_spec8 s0r s1r clamp)]
  · unfold vDot8I32I4op specDotSignedI32
    rw [dotSumI_eq_spec 4 s0r s1r clamp (dotTermI_eq_spec4 s0r s1r clamp)]

/-! ## 64-bit half-select family (vop3p.cc lines 650-910)

These instructions operate on 64-bit lane values holding two 32-bit
dwords.  Floating-point bit patterns are transported as 32-bit words;
the external floating-point operations (spec §4.3) are parameters.
C++ float negation flips the IEEE sign bit. -/

/-- Bit-level float negation: flip the sign bit of a 32-bit pattern. -/
def fneg32 (v : Nat) : Nat := v ^^^ 2 ^ 31

/-- The per-lane body of `V_PK_FMA_F32::execute`. -/
def pkFmaF32lane (f : Nat → Nat → Nat → Nat)
    (opsel opsel_hi neg neg_hi : Nat) (s0 s1 s2 : Nat) : Nat :=
  let s0l := if opsel &&& 1 ≠ 0 then bits s0 63 32 else bits s0 31 0
  let s1l := if opsel &&& 2 ≠ 0 then bits s1 63 32 else bits s1 31 0
  let s2l := if opsel &&& 4 ≠ 0 then bits s2 63 32 else bits s2 31 0
  let s0l := if neg &&& 1 ≠ 0 then fneg32 s0l else s0l
  let s1l := if neg &&& 1 ≠ 0 then fneg32 s1l else s1l
  let s2l := if neg &&& 1 ≠ 0 then fneg32 s2l else s2l
  let dword1 := f s0l s1l s2l
  let s0h := if opsel_hi &&& 1 ≠ 0 then bits s0 63 32 else bits s0 31 0
  let s1h := if opsel_hi &&& 2 ≠ 0 then bits s1 63 32 else bits s1 31 0
  let s2h := if opsel_hi &&& 4 ≠ 0 then bits s2 63 32 else bits s2 31 0
  let s0h := if neg_hi &&& 1 ≠ 0 then fneg32 s0h else s0h
  let s1h := if neg_hi &&& 1 ≠ 0 then fneg32 s1h else s1h
  let s2h := if neg_hi &&& 1 ≠ 0 then fneg32 s2h else s2h
  let dword2 := f s0h s1h s2h
  (dword2 % 2 ^ 32) <<< 32 ||| dword1 % 2 ^ 32

/-- The per-lane body of `V_PK_MUL_F32::execute`. -/
def pkMulF32lane (f : Nat → Nat → Nat)
    (opsel opsel_hi neg neg_hi : Nat) (s0 s1 : Nat) : Nat :=
  let ld := if opsel &&& 1 ≠ 0 then bits s0 63 32 else bits s0 31 0
  let ud := if opsel &&& 2 ≠ 0 then bits s1 63 32 else bits s1 31 0
  let ld := if neg &&& 1 ≠ 0 then fneg32 ld else ld
  let ud := if neg &&& 2 ≠ 0 then fneg32 ud else ud
  let dword1 := f ld ud
  let ld2 := if opsel_hi &&& 1 ≠ 0 then bits s0 63 32 else bits s0 31 0
  let ud2 := if opsel_hi &&& 2 ≠ 0 then bits s1 63 32 else bits s1 31 0
  let ld2 := if neg_hi &&& 1 ≠ 0 then fneg32 ld2 else ld2
  let ud2 := if neg_hi &&& 2 ≠ 0 then fneg32 ud2 else ud2
  let dword2 := f ld2 ud2
  (dword2 % 2 ^ 32) <<< 32 ||| dword1 % 2 ^ 32

/-- The per-lane body of `V_PK_ADD_F32::execute` (after its SDWA/DPP
check has passed). -/
def pkAddF32lane (f : Nat → Nat → Nat)
    (opsel opsel_hi neg neg_hi : Nat) (s0 s1 : Nat) : Nat :=
  let ld := if opsel &&& 1 ≠ 0 then bits s0 63 32 else bits s0 31 0
  let ud := if opsel &&& 2 ≠ 0 then bits s1 63 32 else bits s1 31 0
  let ld := if neg &&& 1 ≠ 0 then fneg32 ld else ld
  let ud := if neg &&& 2 ≠ 0 then fneg32 ud else ud
  let dword1 := f ld ud
  let ld2 := if opsel_hi &&& 1 ≠ 0 then bits s0 63 32 else bits s0 31 0
  let ud2 := if opsel_hi &&& 2 ≠ 0 then bits s1 63 32 else bits s1 31 0
  let ld2 := if neg_hi &&& 1 ≠ 0 then fneg32 ld2 else ld2
  let ud2 := if neg_hi &&& 2 ≠ 0 then fneg32 ud2 else ud2
  let dword2 := f ld2 ud2
  (dword2 % 2 ^ 32) <<< 32 ||| dword1 % 2 ^ 32

/-- The per-lane body of `V_PK_MOV_B32::execute`. -/
def pkMovB32lane (opsel : Nat) (s0 s1 : Nat) : Nat :=
  let lower_dword := if opsel &&& 1 ≠ 0 then bits s0 63 32 else bits s0 31 0
  let upper_dword := if opsel &&& 2 ≠ 0 then bits s1 63 32 else bits s1 31 0
  upper_dword <<< 32 ||| lower_dword

/-! Execute-level models.  A wavefront has 64 lanes
(`NumVecElemPerVecReg`); the execution mask is consumed read-only, and
an instruction writes a lane's destination only when its mask bit is
set, leaving all other lanes at their prior values (spec §4.4). -/

/-- `V_PK_FMA_F32::execute` over the whole wavefront. -/
def pkFmaF32exec (f : Nat → Nat → Nat → Nat)
    (opsel opsel_hi neg neg_hi : Nat) (execMask : Fin 64 → Bool)
    (src0 src1 src2 dst : Fin 64 → Nat) : Fin 64 → Nat :=
  fun lane =>
    if execMask lane then
      pkFmaF32lane f opsel opsel_hi neg neg_hi
        (src0 lane) (src1 lane) (src2 lane)
    else dst lane

/-- `V_PK_MUL_F32::execute` over the whole wavefront. -/
def pkMulF32exec (f : Nat → Nat → Nat)
    (opsel opsel_hi neg neg_hi : Nat) (execMask : Fin 64 → Bool)
    (src0 src1 dst : Fin 64 → Nat) : Fin 64 → Nat :=
  fun lane =>
    if execMask lane then
      pkMulF32lane f opsel opsel_hi neg neg_hi (src0 lane) (src1 lane)
    else dst lane

/-- `V_PK_MOV_B32::execute` over the whole wavefront. -/
def pkMovB32exec (opsel : Nat) (execMask : Fin 64 → Bool)
    (src0 src1 dst : Fin 64 → Nat) : Fin 64 → Nat :=
  fun lane =>
    if execMask lane then pkMovB32lane opsel (src0 lane) (src1 lane)
    else dst lane

/-- `V_PK_ADD_F32::execute`: `panic_if(isSDWAInst())` and
`panic_if(isDPPInst())` run before the lane loop, so with either
extension present the instruction aborts with a fatal configuration
error and produces no destination update. -/
def pkAddF32execE (f : Nat → Nat → Nat) (sdwa dpp : Bool)
    (opsel opsel_hi neg neg_hi : Nat) (execMask : Fin 64 → Bool)
    (src0 src1 dst : Fin 64 → Nat) : Except String (Fin 64 → Nat) :=
  if sdwa then Except.error "SDWA not supported for v_pk_add_f32"
  else if dpp then Except.error "DPP not supported for v_pk_add_f32"
  else Except.ok (fun lane =>
    if execMask lane then
      pkAddF32lane f opsel opsel_hi neg neg_hi (src0 lane) (src1 lane)
    else dst lane)

/-- `V_PK_MUL_F32::execute` invoked with addressing-extension flags: the
source contains no SDWA/DPP check, so the flags are ignored and the
instruction always completes. -/
def pkMulF32execE (f : Nat → Nat → Nat) (sdwa dpp : Bool)
    (opsel opsel_hi neg neg_hi : Nat) (execMask : Fin 64 → Bool)
    (src0 src1 dst : Fin 64 → Nat) : Except String (Fin 64 → Nat) :=
  Except.ok (pkMulF32exec f opsel opsel_hi neg neg_hi execMask src0 src1 dst)

/-- `V_PK_FMA_F32::execute` invoked with addressing-extension flags: no
SDWA/DPP check exists in the source, so it always completes. -/
def pkFmaF32execE (f : Nat → Nat → Nat → Nat) (sdwa dpp : Bool)
    (opsel opsel_hi neg neg_hi : Nat) (execMask : Fin 64 → Bool)
    (src0 src1 src2 dst : Fin 64 → Nat) : Except String (Fin 64 → Nat) :=
  Except.ok
    (pkFmaF32exec f opsel opsel_hi neg neg_hi execMask src0 src1 src2 dst)

/-- The register-file commit: a completed instruction's destination
vector replaces the register; an aborted one leaves it untouched. -/
def commitDst (dst : Fin 64 → Nat) :
    Except String (Fin 64 → Nat) → (Fin 64 → Nat)
  | Except.ok v => v
  | Except.error _ => dst

/-- Whether an execution outcome is a fatal configuration error. -/
def isFatalError {α : Type} : Except String α → Bool
  | Except.error _ => true
  | Except.ok _ => false

/-- C3: `V_PK_ADD_F32` raises a fatal configuration error when invoked
with the SDWA or DPP addressing extension and in that case leaves the
destination register unchanged; `V_PK_MUL_F32` and `V_PK_FMA_F32` (the
rest of the packed 32-bit float family) perform no such check and never
raise it. -/
theorem C3_pk_add_f32_sdwa_dpp_fatal
    (fadd fmul : Nat → Nat → Nat) (ffma : Nat → Nat → Nat → Nat)
    (sdwa dpp : Bool) (opsel opsel_hi neg neg_hi : Nat)
    (execMask : Fin 64 → Bool) (src0 src1 src2 dst : Fin 64 → Nat) :
    ((sdwa || dpp) = true →
      isFatalError (pkAddF32execE fadd sdwa dpp opsel opsel_hi neg neg_hi
        execMask src0 src1 dst) = true ∧
      commitDst dst (pkAddF32execE fadd sdwa dpp opsel opsel_hi neg neg_hi
        execMask src0 src1 dst) = dst) ∧
    isFatalError (pkMulF32execE fmul sdwa dpp opsel opsel_hi neg neg_hi
      execMask src0 src1 dst) = false ∧
    isFatalError (pkFmaF32execE ffma sdwa dpp opsel opsel_hi neg neg_hi
      execMask src0 src1 src2 dst) = false := by
  refine ⟨fun h => ?_, rfl, rfl⟩
  cases sdwa with
  | true => exact ⟨rfl, rfl⟩
  | false =>
    cases dpp with
    | true => exact ⟨rfl, rfl⟩
    | false => simp at h

/-- C3 witness: with SDWA set, the packed add aborts with the fatal
error and commits nothing, while the packed multiply completes. -/
theorem C3_pk_add_f32_sdwa_dpp_fatal_witness :
    isFatalError (pkAddF32execE (fun a _ => a) true false 0 0 0 0
      (fun _ => true) (fun _ => 1) (fun _ => 2) (fun _ => 7)) = true ∧
    commitDst (fun _ => 7) (pkAddF32execE (fun a _ => a) true false 0 0 0 0
      (fun _ => true) (fun _ => 1) (fun _ => 2) (fun _ => 7)) = fun _ => 7 :=
  (C3_pk_add_f32_sdwa_dpp_fatal (fun a _ => a) (fun a _ => a)
    (fun a _ _ => a) true false 0 0 0 0 (fun _ => true)
    (fun _ => 1) (fun _ => 2) (fun _ => 2) (fun _ => 7)).1 rfl

theorem shift32_or_eq (hi lo : Nat) (h : lo < 2 ^ 32) :
    hi <<< 32 ||| lo = hi * 2 ^ 32 + lo := by
  rw [Nat.shiftLeft_eq, Nat.mul_comm hi, ← Nat.mul_add_lt_is_or h hi]

/-- C6 (amended): per active lane, `V_PK_MOV_B32` follows the rule that
`opsel` bit 0 selects which dword of S0 feeds the low result half and
bit 1 selects which dword of S1 feeds the high half, packed as
`high << 32 | low`; hence `opsel = 0` yields
`D == (S1.lower << 32) | S0.lower` (the *lower* dword of S1, not the
upper one), and `opsel = 3` takes the upper dword of both sources. -/
theorem C6_pk_mov_b32_half_select (opsel : Nat) (execMask : Fin 64 → Bool)
    (src0 src1 dst : Fin 64 → Nat) (lane : Fin 64)
    (h : execMask lane = true) :
    pkMovB32exec opsel execMask src0 src1 dst lane =
      (if opsel &&& 2 ≠ 0 then bits (src1 lane) 63 32
       else bits (src1 lane) 31 0) * 2 ^ 32 +
      (if opsel &&& 1 ≠ 0 then bits (src0 lane) 63 32
       else bits (src0 lane) 31 0) ∧
    (opsel = 0 → pkMovB32exec opsel execMask src0 src1 dst lane =
      bits (src1 lane) 31 0 * 2 ^ 32 + bits (src0 lane) 31 0) ∧
    (opsel = 3 → pkMovB32exec opsel execMask src0 src1 dst lane =
      bits (src1 lane) 63 32 * 2 ^ 32 + bits (src0 lane) 63 32) := by
  have hlow : (if opsel &&& 1 ≠ 0 then bits (src0 lane) 63 32
      else bits (src0 lane) 31 0) < 2 ^ 32 := by
    split_ifs
    · exact lt_of_lt_of_le (bits_lt _ 63 32) (by norm_num)
    · exact lt_of_lt_of_le (bits_lt _ 31 0) (by norm_num)
  have hmain : pkMovB32exec opsel execMask src0 src1 dst lane =
      (if opsel &&& 2 ≠ 0 then bits (src1 lane) 63 32
       else bits (src1 lane) 31 0) * 2 ^ 32 +
      (if opsel &&& 1 ≠ 0 then bits (src0 lane) 63 32
       else bits (src0 lane) 31 0) := by
    simp only [pkMovB32exec, pkMovB32lane, h, if_true]
    exact shift32_or_eq _ _ hlow
  refine ⟨hmain, fun h0 => ?_, fun h3 => ?_⟩
  · rw [hmain, h0, if_neg (by decide : ¬ (0 : Nat) &&& 2 ≠ 0),
      if_neg (by decide : ¬ (0 : Nat) &&& 1 ≠ 0)]
  · rw [hmain, h3, if_pos (by decide : (3 : Nat) &&& 2 ≠ 0),
      if_pos (by decide : (3 : Nat) &&& 1 ≠ 0)]

/-- C6 witness: `opsel = 0` on a lane with distinct dwords
(`S0 = 1·2^32 + 2`, `S1 = 3·2^32 + 4`) yields `4·2^32 + 2`. -/
theorem C6_pk_mov_b32_half_select_witness :
    pkMovB32exec 0 (fun _ => true) (fun _ => 4294967298)
      (fun _ => 12884901892) (fun _ => 0) 0 =
      bits 12884901892 31 0 * 2 ^ 32 + bits 4294967298 31 0 :=
  (C6_pk_mov_b32_half_select 0 (fun _ => true) (fun _ => 4294967298)
    (fun _ => 12884901892) (fun _ => 0) 0 rfl).2.1 rfl

/-- C6 counterexample: with `opsel = 0`, `S0 = 1·2^32 + 2` and
`S1 = 3·2^32 + 4`, the result is not `(S1.upper << 32) | S0.lower`. -/
theorem C6_counterexample :
    pkMovB32lane 0 4294967298 12884901892 ≠
      bits 12884901892 63 32 <<< 32 ||| bits 4294967298 31 0 := by decide

/-! ## Negate-modifier handling in the 64-bit float family (C7) -/

/-- Negate a selected 32-bit source value when the given modifier bit
condition holds. -/
def negIf (p : Prop) [Decidable p] (v : Nat) : Nat :=
  if p then fneg32 v else v

/-- Modelled from the spec's words for C7: the *claimed* behavior, in
which bit 0 of `neg` negates every low-half operand and the high half
uses `neg_hi` bits 0 and 1 per-operand, for a two-operand packed
32-bit float instruction. -/
def claimNegLane2 (f : Nat → Nat → Nat)
    (opsel opsel_hi neg neg_hi : Nat) (s0 s1 : Nat) : Nat :=
  let low := f
    (negIf (neg &&& 1 ≠ 0)
      (if opsel &&& 1 ≠ 0 then bits s0 63 32 else bits s0 31 0))
    (negIf (neg &&& 1 ≠ 0)
      (if opsel &&& 2 ≠ 0 then bits s1 63 32 else bits s1 31 0))
  let high := f
    (negIf (neg_hi &&& 1 ≠ 0)
      (if opsel_hi &&& 1 ≠ 0 then bits s0 63 32 else bits s0 31 0))
    (negIf (neg_hi &&& 2 ≠ 0)
      (if opsel_hi &&& 2 ≠ 0 then bits s1 63 32 else bits s1 31 0))
  (high % 2 ^ 32) <<< 32 ||| low % 2 ^ 32

/-- The per-operand negate scheme the two-operand instructions actually
implement: `neg` bits 0 and 1 apply to S0 and S1 in the low half, and
`neg_hi` bits 0 and 1 apply to S0 and S1 in the high half. -/
def perOpNegLane2 (f : Nat → Nat → Nat)
    (opsel opsel_hi neg neg_hi : Nat) (s0 s1 : Nat) : Nat :=
  let low := f
    (negIf (neg &&& 1 ≠ 0)
      (if opsel &&& 1 ≠ 0 then bits s0 63 32 else bits s0 31 0))
    (negIf (neg &&& 2 ≠ 0)
      (if opsel &&& 2 ≠ 0 then bits s1 63 32 else bits s1 31 0))
  let high := f
    (negIf (neg_hi &&& 1 ≠ 0)
      (if opsel_hi &&& 1 ≠ 0 then bits s0 63 32 else bits s0 31 0))
    (negIf (neg_hi &&& 2 ≠ 0)
      (if opsel_hi &&& 2 ≠ 0 then bits s1 63 32 else bits s1 31 0))
  (high % 2 ^ 32) <<< 32 ||| low % 2 ^ 32

/-- The all-operands-on-bit-0 negate scheme the FMA instruction
actually implements: `neg` bit 0 negates all three low-half operands
and `neg_hi` bit 0 negates all three high-half operands. -/
def allBit0NegLane3 (f : Nat → Nat → Nat → Nat)
    (opsel opsel_hi neg neg_hi : Nat) (s0 s1 s2 : Nat) : Nat :=
  let low := f
    (negIf (neg &&& 1 ≠ 0)
      (if opsel &&& 1 ≠ 0 then bits s0 63 32 else bits s0 31 0))
    (negIf (neg &&& 1 ≠ 0)
      (if opsel &&& 2 ≠ 0 then bits s1 63 32 else bits s1 31 0))
    (negIf (neg &&& 1 ≠ 0)
      (if opsel &&& 4 ≠ 0 then bits s2 63 32 else bits s2 31 0))
  let high := f
    (negIf (neg_hi &&& 1 ≠ 0)
      (if opsel_hi &&& 1 ≠ 0 then bits s0 63 32 else bits s0 31 0))
    (negIf (neg_hi &&& 1 ≠ 0)
      (if opsel_hi &&& 2 ≠ 0 then bits s1 63 32 else bits s1 31 0))
    (negIf (neg_hi &&& 1 ≠ 0)
      (if opsel_hi &&& 4 ≠ 0 then bits s2 63 32 else bits s2 31 0))
  (high % 2 ^ 32) <<< 32 ||| low % 2 ^ 32

/-- C7 (amended): `V_PK_MUL_F32` and `V_PK_ADD_F32` apply the negate
modifiers per-operand in *both* halves (`neg`/`neg_hi` bit 0 to S0, bit
1 to S1); only `V_PK_FMA_F32` tests bit 0 for every operand, and it
does so in the high half too (`neg_hi` bits 1 and 2 are ignored), so
the claimed per-operand high-half behavior also fails for FMA. -/
theorem C7_neg_modifier_asymmetry (f2 : Nat → Nat → Nat)
    (f3 : Nat → Nat → Nat → Nat)
    (opsel opsel_hi neg neg_hi : Nat) (s0 s1 s2 : Nat) :
    pkMulF32lane f2 opsel opsel_hi neg neg_hi s0 s1 =
      perOpNegLane2 f2 opsel opsel_hi neg neg_hi s0 s1 ∧
    pkAddF32lane f2 opsel opsel_hi neg neg_hi s0 s1 =
      perOpNegLane2 f2 opsel opsel_hi neg neg_hi s0 s1 ∧
    pkFmaF32lane f3 opsel opsel_hi neg neg_hi s0 s1 s2 =
      allBit0NegLane3 f3 opsel opsel_hi neg neg_hi s0 s1 s2 ∧
    pkFmaF32lane f3 opsel opsel_hi neg 2 s0 s1 s2 =
      pkFmaF32lane f3 opsel opsel_hi neg 0 s0 s1 s2 ∧
    pkFmaF32lane f3 opsel opsel_hi neg 4 s0 s1 s2 =
      pkFmaF32lane f3 opsel opsel_hi neg 0 s0 s1 s2 := by
  refine ⟨rfl, rfl, rfl, ?_, ?_⟩ <;> rfl

/-- C7 counterexample: for `V_PK_MUL_F32` with `neg = 1` the claimed
behavior (bit 0 negates every low-half operand) disagrees with the
implementation (bit 0 negates only S0): at `f = snd`, `s0 = s1 = 0`,
the code leaves S1's zero bit pattern intact while the claim flips its
sign bit. -/
theorem C7_counterexample :
    pkMulF32lane (fun _ y => y) 0 0 1 0 0 0 ≠
      claimNegLane2 (fun _ y => y) 0 0 1 0 0 0 := by decide

/-! ## Lane dispatch engines (C2, C9)

The 16-bit packed and dot-product instructions delegate their lane loop
to `vop3pHelper` / `dotHelper`, declared in vop3p.hh (which is not among
the provided sources); those shells are modelled from spec §4.4/§4.5.
The 64-bit instructions' lane loops appear inline in vop3p.cc and are
modelled above (`pkFmaF32exec`, `pkMulF32exec`, `pkAddF32execE`,
`pkMovB32exec`). -/

/-- Modelled from the spec: `vop3pHelper` for a binary per-element
operation (the §4.4 lane dispatch engine; the helper itself lives in
vop3p.hh, outside the provided sources).  For each active lane the
per-element operation is applied to each 16-bit sub-element pair of the
lane's source words and the results are packed; inactive lanes keep
their prior destination value. -/
def vop3pHelper2 (op : Nat → Nat → Bool → Nat) (clamp : Bool)
    (execMask : Fin 64 → Bool) (src0 src1 dst : Fin 64 → Nat) :
    Fin 64 → Nat :=
  fun lane =>
    if execMask lane then
      (op (bits (src0 lane) 31 16) (bits (src1 lane) 31 16) clamp % 2 ^ 16)
        <<< 16 |||
      op (bits (src0 lane) 15 0) (bits (src1 lane) 15 0) clamp % 2 ^ 16
    else dst lane

/-- Modelled from the spec: `vop3pHelper` for a ternary per-element
operation (§4.4; the helper lives in vop3p.hh, outside the provided
sources). -/
def vop3pHelper3 (op : Nat → Nat → Nat → Bool → Nat) (clamp : Bool)
    (execMask : Fin 64 → Bool) (src0 src1 src2 dst : Fin 64 → Nat) :
    Fin 64 → Nat :=
  fun lane =>
    if execMask lane then
      (op (bits (src0 lane) 31 16) (bits (src1 lane) 31 16)
        (bits (src2 lane) 31 16) clamp % 2 ^ 16) <<< 16 |||
      op (bits (src0 lane) 15 0) (bits (src1 lane) 15 0)
        (bits (src2 lane) 15 0) clamp % 2 ^ 16
    else dst lane

/-- Modelled from the spec: `dotHelper` (§4.5; the helper lives in
vop3p.hh, outside the provided sources): the reduction operation
receives the three full 32-bit words of each active lane; inactive
lanes keep their prior destination value. -/
def dotHelper (op : Nat → Nat → Nat → Bool → Nat) (clamp : Bool)
    (execMask : Fin 64 → Bool) (src0 src1 src2 dst : Fin 64 → Nat) :
    Fin 64 → Nat :=
  fun lane =>
    if execMask lane then op (src0 lane) (src1 lane) (src2 lane) clamp
    else dst lane

/-- The lane loop shared by `V_ACCVGPR_READ::execute` and
`V_ACCVGPR_WRITE::execute` (vop3p.cc lines 597-633): copy the source
lane value for active lanes (the accumulator-register offset only
selects which physical register `src`/`dst` denote). -/
def accvgprCopyExec (execMask : Fin 64 → Bool)
    (src dst : Fin 64 → Nat) : Fin 64 → Nat :=
  fun lane => if execMask lane then src lane else dst lane

/-- C2: for every instruction in this core and every lane whose exec
mask bit is clear, `execute` leaves that lane's destination value
unchanged, for all source values and modifiers — stated for the two
generic dispatch engines (which carry every 16-bit packed and
dot-product instruction, for an arbitrary per-element/per-reduction
operation) and for each 64-bit-lane instruction of vop3p.cc. -/
theorem C2_inactive_lane_invariant :
    (∀ op clamp execMask src0 src1 dst (lane : Fin 64),
      execMask lane = false →
      vop3pHelper2 op clamp execMask src0 src1 dst lane = dst lane) ∧
    (∀ op clamp execMask src0 src1 src2 dst (lane : Fin 64),
      execMask lane = false →
      vop3pHelper3 op clamp execMask src0 src1 src2 dst lane = dst lane) ∧
    (∀ op clamp execMask src0 src1 src2 dst (lane : Fin 64),
      execMask lane = false →
      dotHelper op clamp execMask src0 src1 src2 dst lane = dst lane) ∧
    (∀ f opsel opsel_hi neg neg_hi execMask src0 src1 src2 dst
        (lane : Fin 64), execMask lane = false →
      pkFmaF32exec f opsel opsel_hi neg neg_hi execMask src0 src1 src2 dst
        lane = dst lane) ∧
    (∀ f opsel opsel_hi neg neg_hi execMask src0 src1 dst (lane : Fin 64),
      execMask lane = false →
      pkMulF32exec f opsel opsel_hi neg neg_hi execMask src0 src1 dst lane =
        dst lane) ∧
    (∀ f sdwa dpp opsel opsel_hi neg neg_hi execMask src0 src1 dst
        (lane : Fin 64), execMask lane = false →
      commitDst dst (pkAddF32execE f sdwa dpp opsel opsel_hi neg neg_hi
        execMask src0 src1 dst) lane = dst lane) ∧
    (∀ opsel execMask src0 src1 dst (lane : Fin 64),
      execMask lane = false →
      pkMovB32exec opsel execMask src0 src1 dst lane = dst lane) ∧
    (∀ execMask src dst (lane : Fin 64), execMask lane = false →
      accvgprCopyExec execMask src dst lane = dst lane) := by
  refine ⟨?_, ?_, ?_, ?_, ?_, ?_, ?_, ?_⟩
  · intro op clamp execMask src0 src1 dst lane h
    simp [vop3pHelper2, h]
  · intro op clamp execMask src0 src1 src2 dst lane h
    simp [vop3pHelper3, h]
  · intro op clamp execMask src0 src1 src2 dst lane h
    simp [dotHelper, h]
  · intro f opsel opsel_hi neg neg_hi execMask src0 src1 src2 dst lane h
    simp [pkFmaF32exec, h]
  · intro f opsel opsel_hi neg neg_hi execMask src0 src1 dst lane h
    simp [pkMulF32exec, h]
  · intro f sdwa dpp opsel opsel_hi neg neg_hi execMask src0 src1 dst lane h
    cases sdwa
    · cases dpp
      · simp [pkAddF32execE, commitDst, h]
      · simp [pkAddF32execE, commitDst]
    · simp [pkAddF32execE, commitDst]
  · intro opsel execMask src0 src1 dst lane h
    simp [pkMovB32exec, h]
  · intro execMask src dst lane h
    simp [accvgprCopyExec, h]

/-- C2 witness: the binary dispatch engine with the mask clear leaves
lane 0's destination at its prior value `7`. -/
theorem C2_inactive_lane_invariant_witness :
    vop3pHelper2 (fun a _ _ => a) true (fun _ => false)
      (fun _ => 1) (fun _ => 2) (fun _ => 7) 0 = 7 :=
  C2_inactive_lane_invariant.1 (fun a _ _ => a) true (fun _ => false)
    (fun _ => 1) (fun _ => 2) (fun _ => 7) 0 rfl

/-- C9: lane noninterference — a lane's committed destination value is
a function only of that lane's own source operand values, the static
modifiers and the clamp flag: two executions whose operand vectors
agree at this lane (and share modifiers and exec mask) produce the same
value in this lane's destination, whatever the other lanes hold.
Stated for the two generic dispatch engines (covering every 16-bit
packed and dot-product instruction) and each 64-bit-lane instruction. -/
theorem C9_lane_noninterference :
    (∀ op clamp execMask src0 src1 dst t0 t1 dst2 (lane : Fin 64),
      src0 lane = t0 lane → src1 lane = t1 lane → dst lane = dst2 lane →
      vop3pHelper2 op clamp execMask src0 src1 dst lane =
        vop3pHelper2 op clamp execMask t0 t1 dst2 lane) ∧
    (∀ op clamp execMask src0 src1 src2 dst t0 t1 t2 dst2 (lane : Fin 64),
      src0 lane = t0 lane → src1 lane = t1 lane → src2 lane = t2 lane →
      dst lane = dst2 lane →
      vop3pHelper3 op clamp execMask src0 src1 src2 dst lane =
        vop3pHelper3 op clamp execMask t0 t1 t2 dst2 lane) ∧
    (∀ op clamp execMask src0 src1 src2 dst t0 t1 t2 dst2 (lane : Fin 64),
      src0 lane = t0 lane → src1 lane = t1 lane → src2 lane = t2 lane →
      dst lane = dst2 lane →
      dotHelper op clamp execMask src0 src1 src2 dst lane =
        dotHelper op clamp execMask t0 t1 t2 dst2 lane) ∧
    (∀ f opsel opsel_hi neg neg_hi execMask src0 src1 src2 dst t0 t1 t2 dst2
        (lane : Fin 64),
      src0 lane = t0 lane → src1 lane = t1 lane → src2 lane = t2 lane →
      dst lane = dst2 lane →
      pkFmaF32exec f opsel opsel_hi neg neg_hi execMask src0 src1 src2 dst
        lane =
        pkFmaF32exec f opsel opsel_hi neg neg_hi execMask t0 t1 t2 dst2
          lane) ∧
    (∀ f opsel opsel_hi neg neg_hi execMask src0 src1 dst t0 t1 dst2
        (lane : Fin 64),
      src0 lane = t0 lane → src1 lane = t1 lane → dst lane = dst2 lane →
      pkMulF32exec f opsel opsel_hi neg neg_hi execMask src0 src1 dst lane =
        pkMulF32exec f opsel opsel_hi neg neg_hi execMask t0 t1 dst2 lane) ∧
    (∀ f sdwa dpp opsel opsel_hi neg neg_hi execMask src0 src1 dst t0 t1
        dst2 (lane : Fin 64),
      src0 lane = t0 lane → src1 lane = t1 lane → dst lane = dst2 lane →
      commitDst dst (pkAddF32execE f sdwa dpp opsel opsel_hi neg neg_hi
        execMask src0 src1 dst) lane =
        commitDst dst2 (pkAddF32execE f sdwa dpp opsel opsel_hi neg neg_hi
          execMask t0 t1 dst2) lane) ∧
    (∀ opsel execMask src0 src1 dst t0 t1 dst2 (lane : Fin 64),
      src0 lane = t0 lane → src1 lane = t1 lane → dst lane = dst2 lane →
      pkMovB32exec opsel execMask src0 src1 dst lane =
        pkMovB32exec opsel execMask t0 t1 dst2 lane) ∧
    (∀ execMask src dst t0 dst2 (lane : Fin 64),
      src lane = t0 lane → dst lane = dst2 lane →
      accvgprCopyExec execMask src dst lane =
        accvgprCopyExec execMask t0 dst2 lane) := by
  refine ⟨?_, ?_, ?_, ?_, ?_, ?_, ?_, ?_⟩
  · intro op clamp execMask src0 src1 dst t0 t1 dst2 lane h0 h1 hd
    simp only [vop3pHelper2, h0, h1, hd]
  · intro op clamp execMask src0 src1 src2 dst t0 t1 t2 dst2 lane h0 h1 h2 hd
    simp only [vop3pHelper3, h0, h1, h2, hd]
  · intro op clamp execMask src0 src1 src2 dst t0 t1 t2 dst2 lane h0 h1 h2 hd
    simp only [dotHelper, h0, h1, h2, hd]
  · intro f opsel opsel_hi neg neg_hi execMask src0 src1 src2 dst t0 t1 t2
      dst2 lane h0 h1 h2 hd
    simp only [pkFmaF32exec, h0, h1, h2, hd]
  · intro f opsel opsel_hi neg neg_hi execMask src0 src1 dst t0 t1 dst2 lane
      h0 h1 hd
    simp only [pkMulF32exec, h0, h1, hd]
  · intro f sdwa dpp opsel opsel_hi neg neg_hi execMask src0 src1 dst t0 t1
      dst2 lane h0 h1 hd
    cases sdwa
    · cases dpp
      · simp only [pkAddF32execE, Bool.false_eq_true, if_false, commitDst,
          h0, h1, hd]
      · simp only [pkAddF32execE, commitDst, hd, if_true, Bool.false_eq_true,
          if_false]
    · simp only [pkAddF32execE, commitDst, hd, if_true]
  · intro opsel execMask src0 src1 dst t0 t1 dst2 lane h0 h1 hd
    simp only [pkMovB32exec, h0, h1, hd]
  · intro execMask src dst t0 dst2 lane h0 hd
    simp only [accvgprCopyExec, h0, hd]

/-- C9 witness: two executions of the binary dispatch engine whose
vectors agree at lane 0 commit the same value there, although every
other lane's sources differ. -/
theorem C9_lane_noninterference_witness :
    vop3pHelper2 (fun a b _ => a + b) true (fun _ => true)
      (fun _ => 1) (fun _ => 2) (fun _ => 7)
      0 =
    vop3pHelper2 (fun a b _ => a + b) true (fun _ => true)
      (fun l => if l = 0 then 1 else 5) (fun l => if l = 0 then 2 else 6)
      (fun l => if l = 0 then 7 else 9) 0 :=
  C9_lane_noninterference.1 (fun a b _ => a + b) true (fun _ => true)
    (fun _ => 1) (fun _ => 2) (fun _ => 7)
    (fun l => if l = 0 then 1 else 5) (fun l => if l = 0 then 2 else 6)
    (fun l => if l = 0 then 7 else 9) 0 (by decide) (by decide) (by decide)

end Vop3p
